import Mathlib

/-!
Shallow embedding of the PostgreSQL data-injector charm (`src/charm.py`).

Conventions of the embedding:
* Timestamps are whole epoch seconds, modelled as `Int`.  The source stores
  `last_update` as a float timestamp with `0` meaning "never refreshed"; it
  compares `datetime.utcnow()` with `datetime.fromtimestamp(last_update)`,
  which agree on one UTC frame (the charm's container runs with TZ=UTC), so
  both times live on one integer axis here.
* Python's `timedelta.seconds` is the sub-day seconds component after floor
  normalisation (`days = floor(total/86400)`, `seconds = total - days*86400`),
  i.e. the floor-modulus `% 86400`, which is `Int.emod` in Lean.
* The float comparison `delta.seconds / 60 < refresh_period` is equivalent to
  the integer comparison `delta.seconds < 60 * refresh_period` because both
  sides are small integers and IEEE division by 60 cannot cross the integral
  bound `refresh_period`.
* External effects (the HTTP download, the tar probes, the `pg_restore`
  subprocess) are parameters describing the environment's behaviour; the
  functions below compute what the charm does with those outcomes.
-/

namespace PostgresqlDataK8s

/-- Operator-visible unit status, from `ops.model` as used by the charm:
`BlockedStatus`, `WaitingStatus`, `ActiveStatus` (plus `maintenance`, unused by
the modelled paths but part of the ops status vocabulary). -/
inductive Status where
  | blocked (msg : String)
  | waiting (msg : String)
  | active
  | maintenance
deriving DecidableEq

/-- Charm configuration options read by the handlers: `sql-dump-url`,
`db-name`, `db-user` and `refresh-period` (a non-negative integer count of
minutes). -/
structure Config where
  sqlDumpUrl : String
  dbName : String
  dbUser : String
  refreshPeriod : Nat
deriving DecidableEq

/-- Connection details (`pgconnstr.ConnectionString`): only the `uri`
attribute is consumed by `_update_database`. -/
structure ConnectionString where
  uri : String
deriving DecidableEq

/-- The durable `_stored` state: `last_update` in epoch seconds, with `0`
meaning "never refreshed" (the `set_default(last_update=0)` initial value). -/
structure StoredState where
  lastUpdate : Int
deriving DecidableEq

/-- Abstraction of the file downloaded by `_fetch_dump_file`, recording the
outcomes of the probes the source performs on it: `tarfile.is_tarfile`,
whether `tarfile.open(path, "r:gz")` succeeds (versus raising
`tarfile.ReadError`, the only exception `_is_gz_archive` catches), and the
entry names `getnames()` reports in listing order. -/
structure DownloadedFile where
  isTarfile : Bool
  gzOpens : Bool
  names : List String
deriving DecidableEq

/-- Outcome of the fetch-and-normalize step as observed by
`_update_database`'s `try/except`:  a usable dump path, or one of the failure
modes (`fetchError` stands for any exception out of `requests.get`/IO;
`formatError` and `emptyArchiveError` are the two `PostgresqlDataK8sError`
raises in `_fetch_dump_file`). -/
inductive FetchOutcome where
  | ok (dumpFile : String)
  | fetchError
  | formatError
  | emptyArchiveError
deriving DecidableEq

/-- Models `_is_gz_archive` (charm.py lines 247-254): attempt
`tarfile.open(file_path, "r:gz")`; `True` on success, `False` on
`tarfile.ReadError`. -/
def isGzArchive (f : DownloadedFile) : Bool := f.gzOpens

/-- Characters after the last slash of a character list; models Python's
`dump_url.rsplit("/", 1)[-1]` (the whole string when no slash occurs). -/
def lastSegment (s : List Char) : List Char :=
  s.foldl (fun acc c => if c = '/' then [] else acc ++ [c]) []

/-- Models `_fetch_dump_file` (charm.py lines 212-245) after the download has
produced the file described by `f` at `/tmp/<last URL segment>`:
* not a tarfile: raise (`formatError`);
* a tarfile that does not open as gz: return the downloaded path unchanged;
* a gz archive with no entry names: raise (`emptyArchiveError`);
* otherwise: extract into `/tmp/` and return `/tmp/` joined with the first
  entry name. -/
def fetchDumpFile (dumpUrl : String) (f : DownloadedFile) : FetchOutcome :=
  let filePath := "/tmp/" ++ String.mk (lastSegment dumpUrl.data)
  if f.isTarfile = false then .formatError
  else if isGzArchive f = false then .ok filePath
  else
    match f.names with
    | [] => .emptyArchiveError
    | n :: _ => .ok ("/tmp/" ++ n)

/-- The four-way refresh decision implicit in `_update_database`
(charm.py lines 150-172). -/
inductive DecisionOutcome where
  | noSourceConfigured
  | noConnection
  | tooSoon
  | run
deriving DecidableEq

/-- The `delta.seconds` component of `now - last_update` (charm.py lines
167-169): Python normalises a `timedelta` to `days = floor(total/86400)` and
`seconds = total - days*86400`, i.e. the floor modulus, `Int.emod`. -/
def deltaSeconds (now lastUpdate : Int) : Int := (now - lastUpdate) % 86400

/-- The decision logic of `_update_database` (charm.py lines 150-172),
extracted as a pure function: empty `sql-dump-url` first, then missing
connection, then the once-ever rule for `refresh-period == 0`, then the
`delta.seconds / 60 < refresh-period` comparison (as an exact integer
comparison, see the module docstring). -/
def decideRefresh (now lastUpdate : Int) (refreshPeriod : Nat) (connPresent : Bool)
    (sqlDumpUrl : String) : DecisionOutcome :=
  if sqlDumpUrl = "" then .noSourceConfigured
  else if connPresent = false then .noConnection
  else if refreshPeriod = 0 ∧ lastUpdate ≠ 0 then .tooSoon
  else if deltaSeconds now lastUpdate < 60 * (refreshPeriod : Int) then .tooSoon
  else .run

/-- Observable result of one `_update_database` call: the stored state and
unit status afterwards, whether the transient `WaitingStatus("Updating the
database.")` stage (charm.py line 176) was reached, the `pg_restore` argv and
stdin file when the tool was spawned, and the (recorded but unchecked) result
of `proc.wait()`. -/
structure UpdateResult where
  stored : StoredState
  status : Status
  waitingSet : Bool
  restoreCmd : Option (List String)
  restoreStdin : Option String
  restoreExit : Option Int
deriving DecidableEq

/-- Result of an early `return` that changes nothing (charm.py lines 164 and
172): state and status keep their prior values, no fetch or restore happens. -/
def UpdateResult.noop (st : StoredState) (prevStatus : Status) : UpdateResult :=
  { stored := st, status := prevStatus, waitingSet := false,
    restoreCmd := none, restoreStdin := none, restoreExit := none }

/-- Models `_update_database` (charm.py lines 140-198).  `conn` is the value
`_get_db_conn()` returns, `fetch` the outcome of `_fetch_dump_file` within the
`try/except`, and `exitCode` the exit status `proc.wait()` would report for
`pg_restore`.  Note the source never inspects that exit status: the success
path unconditionally stores `now` and goes Active after spawning the tool. -/
def updateDatabase (cfg : Config) (conn : Option ConnectionString) (st : StoredState)
    (prevStatus : Status) (now : Int) (fetch : FetchOutcome) (exitCode : Int) :
    UpdateResult :=
  if cfg.sqlDumpUrl = "" then
    { stored := st, status := .blocked "No sql-dump-url (dump.tar.gz) configured.",
      waitingSet := false, restoreCmd := none, restoreStdin := none, restoreExit := none }
  else
    match conn with
    | none =>
        { stored := st, status := .blocked "Waiting for database relation.",
          waitingSet := false, restoreCmd := none, restoreStdin := none,
          restoreExit := none }
    | some c =>
        if cfg.refreshPeriod = 0 ∧ st.lastUpdate ≠ 0 then
          UpdateResult.noop st prevStatus
        else if deltaSeconds now st.lastUpdate < 60 * (cfg.refreshPeriod : Int) then
          UpdateResult.noop st prevStatus
        else
          match fetch with
          | .ok dumpFile =>
              { stored := ⟨now⟩, status := .active, waitingSet := true,
                restoreCmd := some ["pg_restore", "--dbname", c.uri, "--clean",
                  "--no-owner", "--role", cfg.dbUser],
                restoreStdin := some dumpFile, restoreExit := some exitCode }
          | _ =>
              { stored := st,
                status := .blocked
                  "Encountered error while getting SQL dump. Check juju logs for more details.",
                waitingSet := true, restoreCmd := none, restoreStdin := none,
                restoreExit := none }

/-- Models `_on_db_relation_broken` (charm.py lines 71-78): reset
`last_update` to `0`. -/
def onDbRelationBroken (st : StoredState) : StoredState :=
  { st with lastUpdate := 0 }

/-- The fields of `pgsql.MasterChangedEvent` the handler reads: the announced
database name (`event.database`, possibly absent) and whether connection data
is present (`event.master is not None`). -/
structure MasterChangedEvent where
  database : Option String
  masterPresent : Bool
deriving DecidableEq

/-- Models `_on_db_changed` (charm.py lines 80-94).  The `Bool` of the result
records whether `_update_database` was called at all; on the two guard
returns nothing changes. -/
def onDbChanged (cfg : Config) (ev : MasterChangedEvent) (conn : Option ConnectionString)
    (st : StoredState) (prevStatus : Status) (now : Int) (fetch : FetchOutcome)
    (exitCode : Int) : Bool × UpdateResult :=
  if ev.database ≠ some cfg.dbName then (false, UpdateResult.noop st prevStatus)
  else if ev.masterPresent = false then (false, UpdateResult.noop st prevStatus)
  else (true, updateDatabase cfg conn st prevStatus now fetch exitCode)

end PostgresqlDataK8s

namespace PostgresqlDataK8s

/-- Characterisation of the `run` outcome of `decideRefresh`: all the guards
in `_update_database` before the fetch step are passed. -/
theorem decideRefresh_eq_run_iff (now lu : Int) (m : Nat) (cp : Bool) (url : String) :
    decideRefresh now lu m cp url = .run ↔
      url ≠ "" ∧ cp = true ∧ ¬(m = 0 ∧ lu ≠ 0) ∧
        ¬(deltaSeconds now lu < 60 * (m : Int)) := by
  unfold decideRefresh
  split_ifs with h1 h2 h3 h4 <;> simp_all

/-- On the `run` branch with a successful fetch, `_update_database` spawns
`pg_restore` with the fixed argv, stores `now` and goes Active, whatever the
exit code was. -/
theorem updateDatabase_run_ok (cfg : Config) (c : ConnectionString) (st : StoredState)
    (ps : Status) (now : Int) (df : String) (exitCode : Int)
    (h : decideRefresh now st.lastUpdate cfg.refreshPeriod true cfg.sqlDumpUrl = .run) :
    updateDatabase cfg (some c) st ps now (.ok df) exitCode =
      { stored := ⟨now⟩, status := .active, waitingSet := true,
        restoreCmd := some ["pg_restore", "--dbname", c.uri, "--clean", "--no-owner",
          "--role", cfg.dbUser],
        restoreStdin := some df, restoreExit := some exitCode } := by
  rw [decideRefresh_eq_run_iff] at h
  obtain ⟨h1, _, h3, h4⟩ := h
  simp [updateDatabase, h1, h3, h4]

end PostgresqlDataK8s

namespace PostgresqlDataK8s

/-- Claim C1, counterexample: with the dump URL configured, a connection
present, a never-refreshed state and time 100, the decision is Run; the fetch
succeeds and the restore tool exits with status 1 (non-zero), yet
`_update_database` stores `last_update = 100` (it was 0 before) and sets the
status to Active — not Blocked, contradicting the claim at this input. -/
theorem C1_counterexample :
    decideRefresh 100 0 0 true "x/dump.tar" = .run ∧ (1 : Int) ≠ 0 ∧
    (updateDatabase ⟨"x/dump.tar", "db", "dbuser", 0⟩ (some ⟨"postgres://u@h/db"⟩) ⟨0⟩
        Status.active 100 (.ok "/tmp/dump.tar") 1).stored.lastUpdate = 100 ∧
    (updateDatabase ⟨"x/dump.tar", "db", "dbuser", 0⟩ (some ⟨"postgres://u@h/db"⟩) ⟨0⟩
        Status.active 100 (.ok "/tmp/dump.tar") 1).status = Status.active := by
  decide

/-- Claim C1 as amended: on a Run decision with a successful fetch, the
update operation stores `lastRefreshAt = now` and transitions to Active even
when the restore tool exits with a non-zero status — the exit code returned
by `proc.wait()` is recorded but never consulted. -/
theorem C1_amended_restore_exit_ignored (cfg : Config) (c : ConnectionString)
    (st : StoredState) (ps : Status) (now : Int) (df : String) (exitCode : Int)
    (hrun : decideRefresh now st.lastUpdate cfg.refreshPeriod true cfg.sqlDumpUrl = .run)
    (hexit : exitCode ≠ 0) :
    (updateDatabase cfg (some c) st ps now (.ok df) exitCode).stored.lastUpdate = now ∧
    (updateDatabase cfg (some c) st ps now (.ok df) exitCode).status = Status.active ∧
    (updateDatabase cfg (some c) st ps now (.ok df) exitCode).restoreExit = some exitCode := by
  rw [updateDatabase_run_ok cfg c st ps now df exitCode hrun]
  exact ⟨rfl, rfl, rfl⟩

/-- Claim C1 amended, witness at a concrete input (exit code 1). -/
theorem C1_amended_witness :
    (updateDatabase ⟨"x/dump.tar", "db", "dbuser", 0⟩ (some ⟨"postgres://u@h/db"⟩) ⟨0⟩
        Status.active 100 (.ok "/tmp/dump.tar") 1).stored.lastUpdate = 100 ∧
    (updateDatabase ⟨"x/dump.tar", "db", "dbuser", 0⟩ (some ⟨"postgres://u@h/db"⟩) ⟨0⟩
        Status.active 100 (.ok "/tmp/dump.tar") 1).status = Status.active ∧
    (updateDatabase ⟨"x/dump.tar", "db", "dbuser", 0⟩ (some ⟨"postgres://u@h/db"⟩) ⟨0⟩
        Status.active 100 (.ok "/tmp/dump.tar") 1).restoreExit = some 1 :=
  C1_amended_restore_exit_ignored ⟨"x/dump.tar", "db", "dbuser", 0⟩ ⟨"postgres://u@h/db"⟩
    ⟨0⟩ Status.active 100 "/tmp/dump.tar" 1 (by decide) (by decide)

/-- Claim C2, code-bug evaluation: the source compares `delta.seconds` (the
sub-day component) against the period, so with period 10 minutes the decision
is TooSoon both (a) 1440 minutes (exactly one day) after a refresh at
timestamp 1000 and (b) in the never-refreshed state at a time that is a
multiple of 86400 seconds — although in both cases at least 10 minutes have
elapsed and the claim (and the charm's own docstrings) require Run; the
update operation is a no-op there. -/
theorem C2_code_bug_eval :
    decideRefresh (1000 + 86400) 1000 10 true "x/dump.tar" = .tooSoon ∧
    decideRefresh 1641600000 0 10 true "x/dump.tar" = .tooSoon ∧
    updateDatabase ⟨"x/dump.tar", "db", "dbuser", 10⟩ (some ⟨"postgres://u@h/db"⟩) ⟨1000⟩
        Status.active 87400 (.ok "/tmp/dump.tar") 0 =
      UpdateResult.noop ⟨1000⟩ Status.active := by
  decide

/-- Claim C3: with a configured source, a present connection and
`refresh-period = 0`, the decision is Run exactly when `last_update = 0`
("never"), and every decision with `last_update ≠ 0` is TooSoon regardless of
the current time. -/
theorem C3_interval_zero_once (now lu : Int) (url : String) (h : url ≠ "") :
    (decideRefresh now lu 0 true url = .run ↔ lu = 0) ∧
    (lu ≠ 0 → decideRefresh now lu 0 true url = .tooSoon) := by
  have hnn : 0 ≤ deltaSeconds now lu := Int.emod_nonneg _ (by decide)
  by_cases hlu : lu = 0
  · subst hlu
    simp [decideRefresh, h]
    exact hnn
  · simp [decideRefresh, h, hlu]

/-- Claim C3, witness: never-refreshed gives Run, a prior refresh at 50 gives
TooSoon, both at time 100 under period 0. -/
theorem C3_interval_zero_once_witness :
    ((decideRefresh 100 0 0 true "x/dump.tar" = .run ↔ (0 : Int) = 0) ∧
      ((0 : Int) ≠ 0 → decideRefresh 100 0 0 true "x/dump.tar" = .tooSoon)) ∧
    ((decideRefresh 100 50 0 true "x/dump.tar" = .run ↔ (50 : Int) = 0) ∧
      ((50 : Int) ≠ 0 → decideRefresh 100 50 0 true "x/dump.tar" = .tooSoon)) :=
  ⟨C3_interval_zero_once 100 0 "x/dump.tar" (by decide),
   C3_interval_zero_once 100 50 "x/dump.tar" (by decide)⟩

/-- Claim C4: the empty-URL check comes first — with `sql-dump-url = ""` the
decision is NoSourceConfigured for every connection-presence value, and
`_update_database` blocks on the missing URL for every `conn` argument
(the connection is never consulted); with a URL configured and no usable
connection the decision is NoConnection and the status blocks waiting for the
relation. -/
theorem C4_source_priority (now lu : Int) (m : Nat) (cp : Bool)
    (cfgE cfgC : Config) (conn : Option ConnectionString) (st : StoredState) (ps : Status)
    (now2 : Int) (fetch : FetchOutcome) (exitCode : Int)
    (hE : cfgE.sqlDumpUrl = "") (hC : cfgC.sqlDumpUrl ≠ "") :
    decideRefresh now lu m cp "" = .noSourceConfigured ∧
    decideRefresh now lu m false cfgC.sqlDumpUrl = .noConnection ∧
    updateDatabase cfgE conn st ps now2 fetch exitCode =
      { stored := st, status := .blocked "No sql-dump-url (dump.tar.gz) configured.",
        waitingSet := false, restoreCmd := none, restoreStdin := none,
        restoreExit := none } ∧
    updateDatabase cfgC none st ps now2 fetch exitCode =
      { stored := st, status := .blocked "Waiting for database relation.",
        waitingSet := false, restoreCmd := none, restoreStdin := none,
        restoreExit := none } := by
  refine ⟨by simp [decideRefresh], by simp [decideRefresh, hC], ?_, ?_⟩
  · simp [updateDatabase, hE]
  · simp [updateDatabase, hC]

/-- Claim C4, witness at concrete inputs (one config with an empty URL, one
with a URL but no connection). -/
theorem C4_source_priority_witness :
    decideRefresh 5 7 3 true "" = .noSourceConfigured ∧
    decideRefresh 5 7 3 false (Config.mk "x/dump.tar" "db" "dbuser" 0).sqlDumpUrl =
      .noConnection ∧
    updateDatabase ⟨"", "db", "dbuser", 0⟩ (some ⟨"postgres://u@h/db"⟩) ⟨0⟩ Status.active 9
        FetchOutcome.fetchError 0 =
      { stored := ⟨0⟩, status := .blocked "No sql-dump-url (dump.tar.gz) configured.",
        waitingSet := false, restoreCmd := none, restoreStdin := none,
        restoreExit := none } ∧
    updateDatabase ⟨"x/dump.tar", "db", "dbuser", 0⟩ none ⟨0⟩ Status.active 9
        FetchOutcome.fetchError 0 =
      { stored := ⟨0⟩, status := .blocked "Waiting for database relation.",
        waitingSet := false, restoreCmd := none, restoreStdin := none,
        restoreExit := none } :=
  C4_source_priority 5 7 3 true ⟨"", "db", "dbuser", 0⟩ ⟨"x/dump.tar", "db", "dbuser", 0⟩
    (some ⟨"postgres://u@h/db"⟩) ⟨0⟩ Status.active 9 FetchOutcome.fetchError 0
    (by decide) (by decide)

/-- Claim C5: on a Run decision, if the fetch step fails in any way, the
stored state is unchanged, the restore tool is not spawned and the status is
Blocked with the dump-retrieval reason; the error is absorbed (the operation
still returns a normal result). -/
theorem C5_fetch_error_blocked (cfg : Config) (c : ConnectionString) (st : StoredState)
    (ps : Status) (now : Int) (fetch : FetchOutcome) (exitCode : Int)
    (hrun : decideRefresh now st.lastUpdate cfg.refreshPeriod true cfg.sqlDumpUrl = .run)
    (herr : ∀ df, fetch ≠ .ok df) :
    updateDatabase cfg (some c) st ps now fetch exitCode =
      { stored := st,
        status := .blocked
          "Encountered error while getting SQL dump. Check juju logs for more details.",
        waitingSet := true, restoreCmd := none, restoreStdin := none,
        restoreExit := none } := by
  rw [decideRefresh_eq_run_iff] at hrun
  obtain ⟨h1, _, h3, h4⟩ := hrun
  cases fetch with
  | ok df => exact absurd rfl (herr df)
  | fetchError => simp [updateDatabase, h1, h3, h4]
  | formatError => simp [updateDatabase, h1, h3, h4]
  | emptyArchiveError => simp [updateDatabase, h1, h3, h4]

/-- Claim C5, witness: a network-level fetch failure on a Run decision. -/
theorem C5_fetch_error_blocked_witness :
    updateDatabase ⟨"x/dump.tar", "db", "dbuser", 0⟩ (some ⟨"postgres://u@h/db"⟩) ⟨0⟩
        Status.active 100 FetchOutcome.fetchError 7 =
      { stored := ⟨0⟩,
        status := .blocked
          "Encountered error while getting SQL dump. Check juju logs for more details.",
        waitingSet := true, restoreCmd := none, restoreStdin := none,
        restoreExit := none } :=
  C5_fetch_error_blocked ⟨"x/dump.tar", "db", "dbuser", 0⟩ ⟨"postgres://u@h/db"⟩ ⟨0⟩
    Status.active 100 FetchOutcome.fetchError 7 (by decide) (by intro df; simp)

end PostgresqlDataK8s

namespace PostgresqlDataK8s

/-- Claim C6: case analysis of `_fetch_dump_file` on the downloaded file —
not a recognized archive raises the format error; a tar that does not open as
gz is returned at its own download path unchanged; a gz archive with zero
entries raises the empty-archive error; a gz archive with at least one entry
yields the path formed from the first entry name in listing order. -/
theorem C6_fetch_dump_file_cases :
    (∀ url f, f.isTarfile = false → fetchDumpFile url f = .formatError) ∧
    (∀ url f, f.isTarfile = true → isGzArchive f = false →
        fetchDumpFile url f = .ok ("/tmp/" ++ String.mk (lastSegment url.data))) ∧
    (∀ url f, f.isTarfile = true → isGzArchive f = true → f.names = [] →
        fetchDumpFile url f = .emptyArchiveError) ∧
    (∀ url f n rest, f.isTarfile = true → isGzArchive f = true → f.names = n :: rest →
        fetchDumpFile url f = .ok ("/tmp/" ++ n)) := by
  refine ⟨?_, ?_, ?_, ?_⟩
  · intro url f h1
    simp [fetchDumpFile, h1]
  · intro url f h1 h2
    simp [fetchDumpFile, h1, h2]
  · intro url f h1 h2 h3
    simp [fetchDumpFile, h1, h2, h3]
  · intro url f n rest h1 h2 h3
    simp [fetchDumpFile, h1, h2, h3]

/-- Claim C6, witness: the four cases at concrete files. -/
theorem C6_fetch_dump_file_cases_witness :
    fetchDumpFile "x/a.tar" ⟨false, false, []⟩ = .formatError ∧
    fetchDumpFile "x/a.tar" ⟨true, false, []⟩ =
      .ok ("/tmp/" ++ String.mk (lastSegment ("x/a.tar" : String).data)) ∧
    fetchDumpFile "x/a.tgz" ⟨true, true, []⟩ = .emptyArchiveError ∧
    fetchDumpFile "x/a.tgz" ⟨true, true, ["dump.sql"]⟩ = .ok ("/tmp/" ++ "dump.sql") :=
  ⟨C6_fetch_dump_file_cases.1 "x/a.tar" ⟨false, false, []⟩ rfl,
   C6_fetch_dump_file_cases.2.1 "x/a.tar" ⟨true, false, []⟩ rfl rfl,
   C6_fetch_dump_file_cases.2.2.1 "x/a.tgz" ⟨true, true, []⟩ rfl rfl rfl,
   C6_fetch_dump_file_cases.2.2.2 "x/a.tgz" ⟨true, true, ["dump.sql"]⟩ "dump.sql" []
     rfl rfl rfl⟩

/-- Claim C7, code-bug evaluation: the relation-broken handler does reset
`last_update` to 0, but the immediately following decision is not always Run:
with `refresh-period = 60` at time 1641600000 (a multiple of 86400, so
`delta.seconds = 0`), the decision is TooSoon and the update operation is a
no-op, although the state is never-refreshed and the reset's stated purpose
is an update "as soon as possible" on the next join. -/
theorem C7_code_bug_eval :
    (onDbRelationBroken ⟨987654321⟩).lastUpdate = 0 ∧
    decideRefresh 1641600000 0 60 true "x/dump.tar" = .tooSoon ∧
    updateDatabase ⟨"x/dump.tar", "db", "dbuser", 60⟩ (some ⟨"postgres://u@h/db"⟩) ⟨0⟩
        Status.active 1641600000 (.ok "/tmp/dump.tar") 0 =
      UpdateResult.noop ⟨0⟩ Status.active := by
  decide

/-- Claim C8: a relation-changed notification whose announced database name
differs from the configured `db-name` changes nothing — stored state and
status keep their prior values, `_update_database` is not called, no fetch or
restore happens — whatever the environment would have done. -/
theorem C8_db_changed_name_mismatch (cfg : Config) (ev : MasterChangedEvent)
    (conn : Option ConnectionString) (st : StoredState) (ps : Status) (now : Int)
    (fetch : FetchOutcome) (exitCode : Int)
    (h : ev.database ≠ some cfg.dbName) :
    onDbChanged cfg ev conn st ps now fetch exitCode = (false, UpdateResult.noop st ps) := by
  simp [onDbChanged, h]

/-- Claim C8, witness: an announcement for database "other" while "db" is
configured. -/
theorem C8_db_changed_name_mismatch_witness :
    onDbChanged ⟨"x/dump.tar", "db", "dbuser", 0⟩ ⟨some "other", true⟩
        (some ⟨"postgres://u@h/db"⟩) ⟨0⟩ Status.active 100 (.ok "/tmp/dump.tar") 0 =
      (false, UpdateResult.noop ⟨0⟩ Status.active) :=
  C8_db_changed_name_mismatch ⟨"x/dump.tar", "db", "dbuser", 0⟩ ⟨some "other", true⟩
    (some ⟨"postgres://u@h/db"⟩) ⟨0⟩ Status.active 100 (.ok "/tmp/dump.tar") 0 (by decide)

/-- Claim C9: whenever `_update_database` spawns the restore tool, the argv
is exactly `pg_restore --dbname <conn.uri> --clean --no-owner --role
<db-user>` in that order, and the stdin supplied to it is the dump file the
fetch step returned. -/
theorem C9_restore_invocation (cfg : Config) (conn : Option ConnectionString)
    (st : StoredState) (ps : Status) (now : Int) (fetch : FetchOutcome) (exitCode : Int)
    (cmd : List String)
    (h : (updateDatabase cfg conn st ps now fetch exitCode).restoreCmd = some cmd) :
    (∃ c, conn = some c ∧
        cmd = ["pg_restore", "--dbname", c.uri, "--clean", "--no-owner", "--role",
          cfg.dbUser]) ∧
    ∃ df, fetch = .ok df ∧
        (updateDatabase cfg conn st ps now fetch exitCode).restoreStdin = some df := by
  by_cases h1 : cfg.sqlDumpUrl = ""
  · simp [updateDatabase, h1] at h
  · cases conn with
    | none => simp [updateDatabase, h1] at h
    | some c =>
      by_cases h3 : cfg.refreshPeriod = 0 ∧ st.lastUpdate ≠ 0
      · simp [updateDatabase, h1, h3, UpdateResult.noop] at h
      · by_cases h4 : deltaSeconds now st.lastUpdate < 60 * (cfg.refreshPeriod : Int)
        · simp [updateDatabase, h1, h3, h4, UpdateResult.noop] at h
        · cases fetch with
          | ok df =>
            simp only [updateDatabase, if_neg h1, if_neg h3, if_neg h4,
              Option.some.injEq] at h
            exact ⟨⟨c, rfl, h.symm⟩, df, rfl, by simp [updateDatabase, h1, h3, h4]⟩
          | fetchError => simp [updateDatabase, h1, h3, h4] at h
          | formatError => simp [updateDatabase, h1, h3, h4] at h
          | emptyArchiveError => simp [updateDatabase, h1, h3, h4] at h

/-- Claim C9, witness at a concrete run. -/
theorem C9_restore_invocation_witness :
    (∃ c, some (ConnectionString.mk "postgres://u@h/db") = some c ∧
        ["pg_restore", "--dbname", "postgres://u@h/db", "--clean", "--no-owner", "--role",
          "dbuser"] =
          ["pg_restore", "--dbname", c.uri, "--clean", "--no-owner", "--role", "dbuser"]) ∧
    ∃ df, FetchOutcome.ok "/tmp/dump.tar" = .ok df ∧
        (updateDatabase ⟨"x/dump.tar", "db", "dbuser", 0⟩
            (some ⟨"postgres://u@h/db"⟩) ⟨0⟩ Status.active 100
            (.ok "/tmp/dump.tar") 0).restoreStdin = some df :=
  C9_restore_invocation ⟨"x/dump.tar", "db", "dbuser", 0⟩ (some ⟨"postgres://u@h/db"⟩)
    ⟨0⟩ Status.active 100 (.ok "/tmp/dump.tar") 0
    ["pg_restore", "--dbname", "postgres://u@h/db", "--clean", "--no-owner", "--role",
      "dbuser"] (by decide)

/-- Claim C10: with `refresh-period ≥ 1440` minutes, every trigger — the
never-refreshed state included — takes the too-soon branch and never reaches
the fetch or restore stage, because `delta.seconds` is always below 86400 =
60 * 1440. -/
theorem C10_day_or_longer_period_never_runs (cfg : Config) (c : ConnectionString)
    (st : StoredState) (ps : Status) (now : Int) (fetch : FetchOutcome) (exitCode : Int)
    (hurl : cfg.sqlDumpUrl ≠ "") (hm : 1440 ≤ cfg.refreshPeriod) :
    decideRefresh now st.lastUpdate cfg.refreshPeriod true cfg.sqlDumpUrl = .tooSoon ∧
    updateDatabase cfg (some c) st ps now fetch exitCode = UpdateResult.noop st ps := by
  have hlt : deltaSeconds now st.lastUpdate < 60 * (cfg.refreshPeriod : Int) := by
    have h1 : deltaSeconds now st.lastUpdate < 86400 :=
      Int.emod_lt_of_pos _ (by decide)
    have h2 : (1440 : Int) ≤ (cfg.refreshPeriod : Int) := by exact_mod_cast hm
    omega
  have hm0 : ¬(cfg.refreshPeriod = 0 ∧ st.lastUpdate ≠ 0) := by
    rintro ⟨hz, -⟩
    omega
  simp [decideRefresh, updateDatabase, hurl, hm0, hlt]

/-- Claim C10, witness: a never-refreshed state under a 1440-minute period at
a realistic timestamp still yields TooSoon and a no-op. -/
theorem C10_day_or_longer_period_never_runs_witness :
    decideRefresh 1641612345 0 1440 true "x/dump.tar" = .tooSoon ∧
    updateDatabase ⟨"x/dump.tar", "db", "dbuser", 1440⟩ (some ⟨"postgres://u@h/db"⟩) ⟨0⟩
        Status.active 1641612345 (.ok "/tmp/dump.tar") 0 =
      UpdateResult.noop ⟨0⟩ Status.active :=
  C10_day_or_longer_period_never_runs ⟨"x/dump.tar", "db", "dbuser", 1440⟩
    ⟨"postgres://u@h/db"⟩ ⟨0⟩ Status.active 1641612345 (.ok "/tmp/dump.tar") 0
    (by decide) (by decide)

end PostgresqlDataK8s
